import Mathlib

/-!
Verification of the NetSIO hub core, embedded from
src/fujinet-bridge/netsiohub/hub.py.

Embedded pieces: the SyncRequest request/response correlator
(NetSIOHub.SyncRequest), the peripheral-to-host router
(NetSIOHub.handle_device_msg), the host-to-peripheral path
(NetSIOHub.handle_host_msg / NetSIOManager.to_peripheral), the UDP server
broadcast (NetSIOServer.send_to_all), credit accounting
(NetSIOClient.update_credit, NetSIOServer.credit_clients and the credit
branches of NetSIOHandler.handle), and the inbound byte coalescing buffer
(NetInBuffer.extend / NetInBuffer.flush).

Modelling conventions.  Python ints are Nat (event ids, byte values) or
Int (credit values, which Python allows to be negative); wall-clock
instants are Rat; a queue.Queue is a List together with an explicit
capacity constant; a threading.Event is a Bool flag.  queue.Queue.put
without a timeout never drops its item: when the queue is full it blocks
the producer until a slot frees and then inserts, which is modelled by
appending the item and additionally reporting whether the producer had to
block.  Locks are elided: every embedded operation is the body of one
critical section of the source.  Python subscript reads msg.arg[i] are
modelled by List.getD i 0; the theorems only exercise arguments long
enough for the source not to raise IndexError.
-/

namespace NetSIOHub

/-- Event identifier constants.  Modelled from the spec: the module
netsiohub/netsio.py defining these constants is not among the sources;
the values are taken from the TCP/UDP event tables of the spec
(DATA_BYTE = 0x01, DATA_BLOCK = 0x02, COMMAND_ON = 0x11,
COMMAND_OFF_SYNC = 0x18, SYNC_RESPONSE = 0x81, WARM_RESET = 0xFE,
COLD_RESET = 0xFF). -/
def NETSIO_DATA_BYTE : Nat := 0x01

/-- DATA_BLOCK event id (spec TCP/UDP event table). -/
def NETSIO_DATA_BLOCK : Nat := 0x02

/-- COMMAND_ON event id (spec TCP/UDP event table). -/
def NETSIO_COMMAND_ON : Nat := 0x11

/-- COMMAND_OFF_SYNC event id (spec TCP/UDP event table). -/
def NETSIO_COMMAND_OFF_SYNC : Nat := 0x18

/-- SYNC_RESPONSE event id (spec TCP/UDP event table). -/
def NETSIO_SYNC_RESPONSE : Nat := 0x81

/-- WARM_RESET event id (spec TCP/UDP event table). -/
def NETSIO_WARM_RESET : Nat := 0xFE

/-- COLD_RESET event id (spec TCP/UDP event table). -/
def NETSIO_COLD_RESET : Nat := 0xFF

/-- Marker byte for an empty sync response inside a SYNC_RESPONSE
argument.  Modelled from the spec: netsio.py is not among the sources;
the spec notes the empty sync indicator is 0x00, matching
ATDEV_EMPTY_SYNC = 0x00 in
src/fujinet-bridge_mod1/netsiohub/netsio_protocol.py. -/
def NETSIO_EMPTY_SYNC : Nat := 0x00

/-- Empty sync result returned to the emulator
(src/fujinet-bridge_mod1/netsiohub/netsio_protocol.py line 13). -/
def ATDEV_EMPTY_SYNC : Nat := 0x00

/-- Default credit granted to a peripheral.  Modelled from the spec:
netsio.py is not among the sources; the spec fixes the default credit
at 3.  Credit is an Int because Python ints are signed and
DEFAULT_CREDIT - qsize can be negative. -/
def DEFAULT_CREDIT : Int := 3

/-- Capacity of the host_queue (hub.py line 784: queue.Queue(8)). -/
def HOST_QUEUE_CAPACITY : Nat := 8

/-- Capacity of the device_queue (hub.py line 360: queue.Queue(16)). -/
def DEVICE_QUEUE_CAPACITY : Nat := 16

/-- NetSIO message: event id plus argument bytes (netsio.py NetSIOMsg,
modelled from the spec data model; the capture timestamp field is
dropped as no embedded operation reads it). -/
structure NetSIOMsg where
  id : Nat
  arg : List Nat
deriving DecidableEq

/-- State of NetSIOHub.SyncRequest (hub.py lines 744-751): serial
number, pending request kind, stored response and the completion event
flag. -/
structure SyncRequest where
  sn : Nat
  request : Option Nat
  response : Option Nat
  completed : Bool
deriving DecidableEq

/-- SyncRequest.set_request (hub.py lines 753-758): increment the serial
number mod 256, store the request, clear the completion flag, return the
new serial number. -/
def SyncRequest.set_request (s : SyncRequest) (request : Nat) : SyncRequest × Nat :=
  let sn := (s.sn + 1) % 256
  ({ s with sn := sn, request := some request, completed := false }, sn)

/-- SyncRequest.set_response (hub.py lines 760-765): store the response
and signal completion only when a request is in flight and the serial
number matches; otherwise do nothing. -/
def SyncRequest.set_response (s : SyncRequest) (response : Nat) (sn : Nat) : SyncRequest :=
  if s.request ≠ none ∧ s.sn = sn then
    { s with request := none, response := some response, completed := true }
  else s

/-- SyncRequest.get_response (hub.py lines 767-775).  The Python call
completed.wait(timeout) is modelled by reading the completion flag of
the state at the end of the wait: a timeout that elapses without a
matching response leaves the flag false.  Returns the stored response
(which Python initialises to None, hence the Option) or the timeout
value, clearing the request either way. -/
def SyncRequest.get_response (s : SyncRequest) (timout_value : Nat) : Option Nat × SyncRequest :=
  if s.completed then (s.response, { s with request := none })
  else (some timout_value, { s with request := none })

/-- SyncRequest.check_request (hub.py lines 777-779): snapshot of the
pending request and the current serial number. -/
def SyncRequest.check_request (s : SyncRequest) : Option Nat × Nat :=
  (s.request, s.sn)

/-- State of a registered peripheral (hub.py NetSIOClient, lines 32-39):
address (the UDP source address, abstracted to a Nat key), expiry
deadline and credit.  The socket and lock fields are elided. -/
structure NetSIOClient where
  address : Nat
  expire_time : ℚ
  credit : Int
deriving DecidableEq

/-- NetSIOClient.expired (hub.py lines 41-46): the client is expired at
time t when its deadline lies strictly before t. -/
def NetSIOClient.expired (c : NetSIOClient) (t : ℚ) : Bool :=
  decide (c.expire_time < t)

/-- NetSIOClient.update_credit (hub.py lines 52-58): replace the stored
credit with the given value and return true exactly when the stored
credit at the time of the call is at most the threshold (the Python
default threshold is 0; call sites omitting it pass 0 here). -/
def NetSIOClient.update_credit (c : NetSIOClient) (credit : Int) (threshold : Int) :
    NetSIOClient × Bool :=
  if c.credit ≤ threshold then ({ c with credit := credit }, true) else (c, false)

/-- State of NetSIOServer relevant to broadcasting (hub.py lines
162-173): the test-only datagram counter sn and the registered
clients. -/
structure NetSIOServerSt where
  sn : Nat
  clients : List NetSIOClient
deriving DecidableEq

/-- NetSIOServer.send_to_all (hub.py lines 222-239): append the server
counter byte to the argument (the lines marked TODO test only),
increment the counter mod 256, and send the mutated message to every
non-expired client.  Returns the new server state, the message as
transmitted, and the addresses it was sent to.  The trailing
expire_clients call only deregisters expired clients and sends nothing,
so it is not modelled. -/
def send_to_all (st : NetSIOServerSt) (msg : NetSIOMsg) (t : ℚ) :
    NetSIOServerSt × NetSIOMsg × List Nat :=
  let msg1 : NetSIOMsg := { msg with arg := msg.arg ++ [st.sn] }
  let recipients := (st.clients.filter (fun c => !(c.expired t))).map
    (fun c => c.address)
  ({ st with sn := (1 + st.sn) % 256 }, msg1, recipients)

/-- NetSIOServer.credit_clients (hub.py lines 253-262): recompute the
available credit as DEFAULT_CREDIT minus the host queue size; when it is
at least 2, run update_credit (threshold 0) on every client and send a
CREDIT_UPDATE carrying the new credit to each client whose update
succeeded.  The sends are recorded as (address, credit) pairs. -/
def credit_clients (clients : List NetSIOClient) (qsize : Nat) :
    List NetSIOClient × List (Nat × Int) :=
  let credit : Int := DEFAULT_CREDIT - qsize
  if 2 ≤ credit then
    let results := clients.map (fun c => c.update_credit credit 0)
    (results.map Prod.fst,
     (results.filter (fun r => r.2)).map (fun r => (r.1.address, credit)))
  else (clients, [])

/-- Operations of hub.py that touch one client's stored credit, with the
data each branch reads: registration (hub.py line 191), the
credit_clients recomputation (lines 253-262), the NETSIO_CREDIT_STATUS
branch (lines 321-329) and the NETSIO_ALIVE_REQUEST branch (lines
308-320).  arg0 is the first payload byte of the datagram, qsize the
host queue size read by the branch. -/
inductive CreditOp where
  | register : CreditOp
  | creditClients : Nat → CreditOp
  | creditStatus : Nat → Nat → CreditOp
  | aliveRequest : Nat → CreditOp
deriving DecidableEq

/-- Effect of one credit-touching operation on one client's record,
following the cited hub.py lines.  register runs
update_credit(DEFAULT_CREDIT); creditClients runs update_credit(credit)
only when credit is at least 2; creditStatus runs
update_credit(arg0, 10) and then, when the recomputed credit is at least
2, update_credit(credit); aliveRequest runs update_credit(arg0). -/
def creditStep (c : NetSIOClient) (op : CreditOp) : NetSIOClient :=
  match op with
  | CreditOp.register => (c.update_credit DEFAULT_CREDIT 0).1
  | CreditOp.creditClients qsize =>
      let credit : Int := DEFAULT_CREDIT - qsize
      if 2 ≤ credit then (c.update_credit credit 0).1 else c
  | CreditOp.creditStatus arg0 qsize =>
      let c1 := (c.update_credit (arg0 : Int) 10).1
      let credit : Int := DEFAULT_CREDIT - qsize
      if 2 ≤ credit then (c1.update_credit credit 0).1 else c1
  | CreditOp.aliveRequest arg0 => (c.update_credit (arg0 : Int) 0).1

/-- Datagram payload bytes are at most 255 (msg.arg holds bytes). -/
def CreditOp.byteOk : CreditOp → Bool
  | CreditOp.creditStatus arg0 _ => decide (arg0 ≤ 255)
  | CreditOp.aliveRequest arg0 => decide (arg0 ≤ 255)
  | _ => true

/-- NetInBuffer.BUFFER_SIZE (hub.py line 86). -/
def BUFFER_SIZE : Nat := 130

/-- NetInBuffer.BUFFER_MAX_AGE in seconds (hub.py line 87). -/
def BUFFER_MAX_AGE : ℚ := 5 / 1000

/-- State of NetInBuffer (hub.py lines 83-96): the accumulated bytes and
the instant at which the monitor thread will flush.  Each set_delay call
restarts the monitor's condition wait for the full given delay, so the
armed instant is the time of the most recent extend plus
BUFFER_MAX_AGE; none means no timed flush is pending. -/
structure NetInBuffer where
  data : List Nat
  deadline : Option ℚ
deriving DecidableEq

/-- NetInBuffer.flush (hub.py lines 149-160): emit nothing when the
buffer is empty, a DATA_BLOCK when it holds more than one byte, and a
DATA_BYTE when it holds exactly one byte; the buffer is reset either
way.  The emitted message goes to hub.handle_device_msg. -/
def NetInBuffer.flush (buf : NetInBuffer) : NetInBuffer × Option NetSIOMsg :=
  if buf.data.length = 0 then (buf, none)
  else if 1 < buf.data.length then
    ({ buf with data := [] }, some ⟨NETSIO_DATA_BLOCK, buf.data⟩)
  else
    ({ buf with data := [] }, some ⟨NETSIO_DATA_BYTE, buf.data⟩)

/-- NetInBuffer.extend (hub.py lines 140-147): append the received
bytes; flush immediately when the length reaches BUFFER_SIZE, otherwise
arm the monitor to flush BUFFER_MAX_AGE after this extend (set_delay
restarts the monitor wait, so a previously armed instant is
replaced). -/
def NetInBuffer.extend (buf : NetInBuffer) (b : List Nat) (now : ℚ) :
    NetInBuffer × Option NetSIOMsg :=
  let data1 := buf.data ++ b
  if BUFFER_SIZE ≤ data1.length then
    NetInBuffer.flush { buf with data := data1 }
  else
    ({ data := data1, deadline := some (now + BUFFER_MAX_AGE) }, none)

/-- State of NetSIOHub as read by handle_device_msg (hub.py lines
781-787, 845-884): the host_ready event flag, the SyncRequest slot and
the host_queue. -/
structure HubState where
  host_ready : Bool
  sync : SyncRequest
  host_queue : List NetSIOMsg
deriving DecidableEq

/-- Outcome of handle_device_msg, mirroring its return paths: discarded
because no host is connected (line 847), consumed as the response to the
in-flight sync request (lines 854-864, recording whether clear_rtr was
called on the host handler), discarded as data arriving while a sync
request is in flight (lines 865-867), or enqueued on host_queue (line
884, with the message as enqueued and whether the full queue blocked the
producer). -/
inductive DevAction where
  | dropNoHost : DevAction
  | syncConsumed : Bool → DevAction
  | discardedData : DevAction
  | enqueued : NetSIOMsg → Bool → DevAction
deriving DecidableEq

/-- Packed 32-bit sync result (hub.py lines 862-863):
NETSIO_SYNC_RESPONSE | arg[2] << 8 | arg[3] << 16 | arg[4] << 24. -/
def packSyncResponse (arg : List Nat) : Nat :=
  NETSIO_SYNC_RESPONSE ||| (arg.getD 2 0) <<< 8 ||| (arg.getD 3 0) <<< 16 |||
    (arg.getD 4 0) <<< 24

/-- Tail of handle_device_msg (hub.py lines 871-884): a SYNC_RESPONSE
that was not consumed by the sync slot and carries a non-empty second
byte is replaced by a DATA_BYTE holding its ack byte; the message is
then put on host_queue (the full() check only logs; put blocks the
producer when the queue is full and never drops). -/
def hostEnqueue (st : HubState) (msg : NetSIOMsg) : HubState × DevAction :=
  let msg1 :=
    if msg.id = NETSIO_SYNC_RESPONSE ∧ msg.arg.getD 1 0 ≠ NETSIO_EMPTY_SYNC then
      ({ id := NETSIO_DATA_BYTE, arg := [msg.arg.getD 2 0] } : NetSIOMsg)
    else msg
  ({ st with host_queue := st.host_queue ++ [msg1] },
   DevAction.enqueued msg1 (decide (HOST_QUEUE_CAPACITY ≤ st.host_queue.length)))

/-- NetSIOHub.handle_device_msg (hub.py lines 845-884): discard when the
host is not connected; while a sync request is in flight, consume a
SYNC_RESPONSE whose first argument byte matches the serial number
(storing ATDEV_EMPTY_SYNC when the second byte is the empty marker,
otherwise the packed result, after clear_rtr) and discard
DATA_BYTE/DATA_BLOCK; everything else falls through to hostEnqueue. -/
def handle_device_msg (st : HubState) (msg : NetSIOMsg) : HubState × DevAction :=
  if st.host_ready = false then (st, DevAction.dropNoHost)
  else
    let req := (st.sync.check_request).1
    let sn := (st.sync.check_request).2
    if req ≠ none then
      if msg.id = NETSIO_SYNC_RESPONSE ∧ msg.arg.getD 0 0 = sn then
        if msg.arg.getD 1 0 = NETSIO_EMPTY_SYNC then
          ({ st with sync := st.sync.set_response ATDEV_EMPTY_SYNC sn },
           DevAction.syncConsumed false)
        else
          ({ st with sync := st.sync.set_response (packSyncResponse msg.arg) sn },
           DevAction.syncConsumed true)
      else if msg.id = NETSIO_DATA_BYTE ∨ msg.id = NETSIO_DATA_BLOCK then
        (st, DevAction.discardedData)
      else hostEnqueue st msg
    else hostEnqueue st msg

/-- Function clear_queue of netsio.py.  Modelled from the spec:
netsio.py is not among the sources; the spec says the queue is flushed,
that is every queued item is drained and dropped. -/
def clear_queue (_q : List NetSIOMsg) : List NetSIOMsg := []

/-- NetSIOManager.to_peripheral (hub.py lines 388-400): on COLD_RESET or
WARM_RESET first clear the device queue; then put the message (the
full() check only logs; put blocks the producer when the queue is full
and never drops).  Returns the queue after the put and whether the
producer had to block. -/
def to_peripheral (q : List NetSIOMsg) (msg : NetSIOMsg) : List NetSIOMsg × Bool :=
  let q1 :=
    if msg.id = NETSIO_COLD_RESET ∨ msg.id = NETSIO_WARM_RESET then clear_queue q
    else q
  (q1 ++ [msg], decide (DEVICE_QUEUE_CAPACITY ≤ q1.length))

/-- State of NetSIOHub as touched by handle_host_msg: the device queue
owned by the device manager and the SyncRequest slot. -/
structure HostMsgState where
  device_queue : List NetSIOMsg
  sync : SyncRequest
deriving DecidableEq

/-- NetSIOHub.handle_host_msg (hub.py lines 809-819): log resets, then
forward the message to device_manager.to_peripheral.  No other state is
touched: the queue clearing on reset lives inside to_peripheral and the
commented-out host_queue clearing does not run; the sync slot is not
accessed. -/
def handle_host_msg (st : HostMsgState) (msg : NetSIOMsg) : HostMsgState × Bool :=
  ({ device_queue := (to_peripheral st.device_queue msg).1, sync := st.sync },
   (to_peripheral st.device_queue msg).2)

/-- Disjoint bitwise or is addition: a value below 2 ^ k or-ed with a
left shift by k adds. -/
theorem lor_shl_eq_add (k : ℕ) : ∀ a b : ℕ, a < 2 ^ k → a ||| b <<< k = a + b <<< k := by
  induction k with
  | zero =>
    intro a b h
    have ha : a = 0 := by simpa using h
    subst ha
    simp
  | succ k ih =>
    intro a b h
    have hd : Nat.bit (a.testBit 0) (a >>> 1) = a := Nat.bit_testBit_zero_shiftRight_one a
    have hs : b <<< (k + 1) = Nat.bit false (b <<< k) := by
      simp [Nat.bit, Nat.shiftLeft_succ, Nat.mul_comm]
    have hlt : a >>> 1 < 2 ^ k := by
      rw [Nat.shiftRight_one]
      rw [Nat.pow_succ] at h
      omega
    calc a ||| b <<< (k + 1)
        = Nat.bit (a.testBit 0) (a >>> 1) ||| Nat.bit false (b <<< k) := by rw [hd, ← hs]
      _ = Nat.bit (a.testBit 0 || false) ((a >>> 1) ||| (b <<< k)) := Nat.lor_bit _ _ _ _
      _ = Nat.bit (a.testBit 0) ((a >>> 1) + b <<< k) := by rw [Bool.or_false, ih _ _ hlt]
      _ = a + b <<< (k + 1) := by
          rw [Nat.bit_val, hs, Nat.bit_val]
          have h0 : (a.testBit 0) = decide (a % 2 = 1) := Nat.testBit_zero a
          have h1 : a >>> 1 = a / 2 := Nat.shiftRight_one a
          rcases Nat.mod_two_eq_zero_or_one a with h2 | h2 <;>
            simp [h0, h1, h2] <;> omega

/-- Closed form of the packed sync result for byte-valued arguments. -/
theorem packSyncResponse_eq (sn e a2 a3 a4 : Nat)
    (h2 : a2 < 256) (h3 : a3 < 256) :
    packSyncResponse [sn, e, a2, a3, a4] =
      NETSIO_SYNC_RESPONSE + a2 * 2 ^ 8 + a3 * 2 ^ 16 + a4 * 2 ^ 24 := by
  show 0x81 ||| a2 <<< 8 ||| a3 <<< 16 ||| a4 <<< 24 =
    0x81 + a2 * 2 ^ 8 + a3 * 2 ^ 16 + a4 * 2 ^ 24
  have e1 : (0x81 : ℕ) ||| a2 <<< 8 = 0x81 + a2 <<< 8 :=
    lor_shl_eq_add 8 0x81 a2 (by norm_num)
  have l1 : 0x81 + a2 <<< 8 < 2 ^ 16 := by
    rw [Nat.shiftLeft_eq]; norm_num; omega
  have e2 : (0x81 ||| a2 <<< 8) ||| a3 <<< 16 = (0x81 + a2 <<< 8) + a3 <<< 16 := by
    rw [e1]; exact lor_shl_eq_add 16 _ a3 l1
  have l2 : (0x81 + a2 <<< 8) + a3 <<< 16 < 2 ^ 24 := by
    rw [Nat.shiftLeft_eq, Nat.shiftLeft_eq]; norm_num; omega
  have e3 : ((0x81 ||| a2 <<< 8) ||| a3 <<< 16) ||| a4 <<< 24
      = ((0x81 + a2 <<< 8) + a3 <<< 16) + a4 <<< 24 := by
    rw [e2]; exact lor_shl_eq_add 24 _ a4 l2
  rw [e3, Nat.shiftLeft_eq, Nat.shiftLeft_eq, Nat.shiftLeft_eq]

/-- C1: SyncRequest.set_response(value, sn2) leaves the stored response,
the completion flag and the whole slot unchanged when no request is in
flight or sn2 differs from the current serial number; it stores the
value, signals completion and consumes the request exactly when a
request is in flight and sn2 matches. -/
theorem set_response_accepts_only_matching (s : SyncRequest) (v sn2 : Nat) :
    (s.request = none ∨ s.sn ≠ sn2 → s.set_response v sn2 = s) ∧
    (s.request ≠ none → s.sn = sn2 →
      (s.set_response v sn2).response = some v ∧
      (s.set_response v sn2).completed = true ∧
      (s.set_response v sn2).request = none) := by
  constructor
  · intro h
    unfold SyncRequest.set_response
    rcases h with h | h
    · rw [if_neg]
      intro hc
      exact hc.1 h
    · rw [if_neg]
      intro hc
      exact h hc.2
  · intro h1 h2
    unfold SyncRequest.set_response
    rw [if_pos ⟨h1, h2⟩]
    exact ⟨rfl, rfl, rfl⟩

/-- Witness for C1 at concrete slots: a mismatched serial number leaves
the slot untouched, a matching one stores the value and completes. -/
theorem set_response_accepts_only_matching_w :
    SyncRequest.set_response ⟨5, some 0x18, none, false⟩ 7 3 =
      ⟨5, some 0x18, none, false⟩ ∧
    (SyncRequest.set_response ⟨5, some 0x18, none, false⟩ 7 5).response = some 7 := by
  constructor
  · exact (set_response_accepts_only_matching ⟨5, some 0x18, none, false⟩ 7 3).1
      (Or.inr (by decide))
  · exact ((set_response_accepts_only_matching ⟨5, some 0x18, none, false⟩ 7 5).2
      (by decide) rfl).1

/-- C10: NetSIOClient.update_credit(credit, threshold) returns true and
replaces the stored credit exactly when the stored credit at call time
is at most the threshold; otherwise it returns false and leaves the
client unchanged. -/
theorem update_credit_rule (c : NetSIOClient) (v t : Int) :
    ((c.update_credit v t).2 = true ↔ c.credit ≤ t) ∧
    ((c.update_credit v t).2 = true → (c.update_credit v t).1 = { c with credit := v }) ∧
    ((c.update_credit v t).2 = false → (c.update_credit v t).1 = c) := by
  unfold NetSIOClient.update_credit
  split_ifs with h <;> simp [h]

/-- Witness for C10: a client with credit 0 accepts an update at the
default threshold 0; a client with credit 5 refuses it. -/
theorem update_credit_rule_w :
    (NetSIOClient.update_credit ⟨1, 0, 0⟩ 3 0).2 = true ∧
    (NetSIOClient.update_credit ⟨1, 0, 0⟩ 3 0).1 = ⟨1, 0, 3⟩ ∧
    (NetSIOClient.update_credit ⟨1, 0, 5⟩ 3 0).2 = false := by
  refine ⟨?_, ?_, ?_⟩
  · exact (update_credit_rule ⟨1, 0, 0⟩ 3 0).1.mpr (by norm_num)
  · exact (update_credit_rule ⟨1, 0, 0⟩ 3 0).2.1
      ((update_credit_rule ⟨1, 0, 0⟩ 3 0).1.mpr (by norm_num))
  · rcases Bool.eq_false_or_eq_true ((NetSIOClient.update_credit ⟨1, 0, 5⟩ 3 0).2) with h | h
    · exact absurd ((update_credit_rule ⟨1, 0, 5⟩ 3 0).1.mp h) (by norm_num)
    · exact h

/-- C2 counterexample: after a sync timeout the request slot is none
(get_response cleared it), yet a late SYNC_RESPONSE with serial number 5
and non-empty second byte is not discarded: handle_device_msg converts
it to a DATA_BYTE carrying its ack byte 0x41 and enqueues that for the
host, refuting that nothing derived from a late response is delivered to
the host.  The stored response is indeed unchanged. -/
theorem late_sync_response_delivered_ce :
    (handle_device_msg ⟨true, ⟨5, none, none, false⟩, []⟩
        ⟨NETSIO_SYNC_RESPONSE, [5, 1, 0x41, 0, 0]⟩).1.host_queue =
      [⟨NETSIO_DATA_BYTE, [0x41]⟩] ∧
    (handle_device_msg ⟨true, ⟨5, none, none, false⟩, []⟩
        ⟨NETSIO_SYNC_RESPONSE, [5, 1, 0x41, 0, 0]⟩).1.sync =
      ⟨5, none, none, false⟩ ∧
    (handle_device_msg ⟨true, ⟨5, none, none, false⟩, []⟩
        ⟨NETSIO_SYNC_RESPONSE, [5, 1, 0x41, 0, 0]⟩).2 =
      DevAction.enqueued ⟨NETSIO_DATA_BYTE, [0x41]⟩ false := by
  decide

/-- C2 amended: after the timeout elapses without a matching response,
get_response returns the empty indicator and clears the request; a
SYNC_RESPONSE arriving after that does not alter the stored response,
but it is not discarded: with a non-empty second byte it is converted to
a DATA_BYTE carrying its ack byte and enqueued for the host. -/
theorem sync_timeout_late_response (s : SyncRequest) (tv : Nat) (st : HubState)
    (msg : NetSIOMsg)
    (hc : s.completed = false)
    (hr : st.host_ready = true)
    (hn : st.sync.request = none)
    (hid : msg.id = NETSIO_SYNC_RESPONSE)
    (hne : msg.arg.getD 1 0 ≠ NETSIO_EMPTY_SYNC) :
    s.get_response tv = (some tv, { s with request := none }) ∧
    (handle_device_msg st msg).1.sync = st.sync ∧
    (handle_device_msg st msg).1.host_queue =
      st.host_queue ++ [⟨NETSIO_DATA_BYTE, [msg.arg.getD 2 0]⟩] := by
  refine ⟨?_, ?_⟩
  · unfold SyncRequest.get_response
    rw [hc]
    simp
  · unfold handle_device_msg
    rw [hr]
    simp only [SyncRequest.check_request, hn, Bool.true_eq_false, if_false, ne_eq,
      not_true_eq_false, if_neg (by simp : ¬(none : Option Nat) ≠ none)]
    unfold hostEnqueue
    rw [if_pos ⟨hid, hne⟩]
    exact ⟨rfl, rfl⟩

/-- Witness for C2 amended at a concrete timed-out slot and a concrete
late SYNC_RESPONSE. -/
theorem sync_timeout_late_response_w :
    SyncRequest.get_response ⟨5, some 0x18, none, false⟩ ATDEV_EMPTY_SYNC =
      (some ATDEV_EMPTY_SYNC, ⟨5, none, none, false⟩) ∧
    (handle_device_msg ⟨true, ⟨5, none, none, false⟩, []⟩
        ⟨NETSIO_SYNC_RESPONSE, [5, 1, 0x43, 0, 0]⟩).1.host_queue =
      [⟨NETSIO_DATA_BYTE, [0x43]⟩] := by
  have h := sync_timeout_late_response ⟨5, some 0x18, none, false⟩ ATDEV_EMPTY_SYNC
    ⟨true, ⟨5, none, none, false⟩, []⟩ ⟨NETSIO_SYNC_RESPONSE, [5, 1, 0x43, 0, 0]⟩
    rfl rfl rfl rfl (by decide)
  exact ⟨h.1, h.2.2⟩

/-- C3: with the device queue at its capacity of 16, to_peripheral does
not drop the new message: the put keeps it (blocking the producer, the
reported flag), contradicting drop-on-full; likewise with the host queue
at its capacity of 8, handle_device_msg enqueues the new message and
reports that the producer blocked. -/
theorem full_queue_put_blocks_not_drops :
    (to_peripheral (List.replicate 16 ⟨NETSIO_DATA_BYTE, [0]⟩)
        ⟨NETSIO_DATA_BLOCK, [1, 2, 3]⟩).1 =
      List.replicate 16 ⟨NETSIO_DATA_BYTE, [0]⟩ ++ [⟨NETSIO_DATA_BLOCK, [1, 2, 3]⟩] ∧
    (to_peripheral (List.replicate 16 ⟨NETSIO_DATA_BYTE, [0]⟩)
        ⟨NETSIO_DATA_BLOCK, [1, 2, 3]⟩).2 = true ∧
    (handle_device_msg ⟨true, ⟨0, none, none, false⟩,
        List.replicate 8 ⟨NETSIO_DATA_BYTE, [0]⟩⟩ ⟨NETSIO_DATA_BYTE, [7]⟩).1.host_queue =
      List.replicate 8 ⟨NETSIO_DATA_BYTE, [0]⟩ ++ [⟨NETSIO_DATA_BYTE, [7]⟩] ∧
    (handle_device_msg ⟨true, ⟨0, none, none, false⟩,
        List.replicate 8 ⟨NETSIO_DATA_BYTE, [0]⟩⟩ ⟨NETSIO_DATA_BYTE, [7]⟩).2 =
      DevAction.enqueued ⟨NETSIO_DATA_BYTE, [7]⟩ true := by
  decide

/-- C4 counterexample: a COLD_RESET arriving from the host while a sync
request is in flight empties the device queue and enqueues the reset,
but the SyncRequest slot is not cleared: the request is still pending
afterwards, refuting the clearing of the SyncRequest slot. -/
theorem cold_reset_keeps_sync_slot_ce :
    (handle_host_msg ⟨List.replicate 5 ⟨NETSIO_DATA_BYTE, [1]⟩,
        ⟨9, some NETSIO_COMMAND_OFF_SYNC, none, false⟩⟩
      ⟨NETSIO_COLD_RESET, []⟩).1.device_queue = [⟨NETSIO_COLD_RESET, []⟩] ∧
    (handle_host_msg ⟨List.replicate 5 ⟨NETSIO_DATA_BYTE, [1]⟩,
        ⟨9, some NETSIO_COMMAND_OFF_SYNC, none, false⟩⟩
      ⟨NETSIO_COLD_RESET, []⟩).1.sync.request = some NETSIO_COMMAND_OFF_SYNC := by
  decide

/-- C4 amended: on COLD_RESET or WARM_RESET from the host the
peripheral-bound device queue is emptied before the reset message is
enqueued, so the reset is the next message broadcast; the SyncRequest
slot is left untouched, not cleared. -/
theorem reset_flush_rule (st : HostMsgState) (msg : NetSIOMsg)
    (h : msg.id = NETSIO_COLD_RESET ∨ msg.id = NETSIO_WARM_RESET) :
    (handle_host_msg st msg).1.device_queue = [msg] ∧
    (handle_host_msg st msg).1.sync = st.sync := by
  unfold handle_host_msg to_peripheral
  rw [if_pos h]
  exact ⟨rfl, rfl⟩

/-- Witness for C4 amended at a concrete loaded queue and pending sync
request. -/
theorem reset_flush_rule_w :
    (handle_host_msg ⟨List.replicate 3 ⟨NETSIO_DATA_BYTE, [2]⟩,
        ⟨4, some NETSIO_COMMAND_OFF_SYNC, none, false⟩⟩
      ⟨NETSIO_WARM_RESET, []⟩).1.device_queue = [⟨NETSIO_WARM_RESET, []⟩] ∧
    (handle_host_msg ⟨List.replicate 3 ⟨NETSIO_DATA_BYTE, [2]⟩,
        ⟨4, some NETSIO_COMMAND_OFF_SYNC, none, false⟩⟩
      ⟨NETSIO_WARM_RESET, []⟩).1.sync =
      ⟨4, some NETSIO_COMMAND_OFF_SYNC, none, false⟩ := by
  exact reset_flush_rule ⟨List.replicate 3 ⟨NETSIO_DATA_BYTE, [2]⟩,
    ⟨4, some NETSIO_COMMAND_OFF_SYNC, none, false⟩⟩ ⟨NETSIO_WARM_RESET, []⟩
    (Or.inr rfl)

/-- C5 counterexample: with an empty host queue the recomputed credit
DEFAULT_CREDIT - 0 = 3 is at least 2 and exceeds the stored credit 1 of
the registered client, yet credit_clients neither updates the client nor
sends a CREDIT_UPDATE, because update_credit only fires when the stored
credit is at most 0. -/
theorem credit_clients_skip_positive_ce :
    2 ≤ DEFAULT_CREDIT - (0 : Int) ∧
    (1 : Int) < DEFAULT_CREDIT - (0 : Int) ∧
    credit_clients [⟨40000, 0, 1⟩] 0 = ([⟨40000, 0, 1⟩], []) := by
  decide

/-- C5 amended: when the recomputed credit DEFAULT_CREDIT - qsize is at
least 2, a client's stored credit is updated to it and a CREDIT_UPDATE
carrying it is sent exactly for the clients whose stored credit is at
most 0 (not for every client whose credit the recomputed value merely
exceeds). -/
theorem credit_clients_rule (clients : List NetSIOClient) (qsize : Nat)
    (h : 2 ≤ DEFAULT_CREDIT - (qsize : Int)) :
    (credit_clients clients qsize).1 =
      clients.map (fun c =>
        if c.credit ≤ 0 then { c with credit := DEFAULT_CREDIT - (qsize : Int) } else c) ∧
    (credit_clients clients qsize).2 =
      (clients.filter (fun c => decide (c.credit ≤ 0))).map
        (fun c => (c.address, DEFAULT_CREDIT - (qsize : Int))) := by
  have key : ∀ (cr : Int) (l : List NetSIOClient),
      List.map Prod.fst (l.map (fun c => c.update_credit cr 0)) =
        l.map (fun c => if c.credit ≤ 0 then { c with credit := cr } else c) ∧
      ((l.map (fun c => c.update_credit cr 0)).filter (fun r => r.2)).map
          (fun r => (r.1.address, cr)) =
        (l.filter (fun c => decide (c.credit ≤ 0))).map (fun c => (c.address, cr)) := by
    intro cr l
    induction l with
    | nil => exact ⟨rfl, rfl⟩
    | cons c rest ih =>
      simp only [NetSIOClient.update_credit] at ih ⊢
      by_cases hc : c.credit ≤ 0
      · refine ⟨?_, ?_⟩ <;> simp [hc, List.filter_cons, ih.1, ih.2]
      · refine ⟨?_, ?_⟩ <;> simp [hc, List.filter_cons, ih.1, ih.2]
  have hres := key (DEFAULT_CREDIT - (qsize : Int)) clients
  simp only [credit_clients]
  rw [if_pos h]
  exact ⟨hres.1, hres.2⟩

/-- Witness for C5 amended: one client at credit 0 is topped up and
notified, one at credit 1 is skipped. -/
theorem credit_clients_rule_w :
    (credit_clients [⟨1, 0, 0⟩, ⟨2, 0, 1⟩] 0).1 = [⟨1, 0, 3⟩, ⟨2, 0, 1⟩] ∧
    (credit_clients [⟨1, 0, 0⟩, ⟨2, 0, 1⟩] 0).2 = [(1, 3)] := by
  have h := credit_clients_rule [⟨1, 0, 0⟩, ⟨2, 0, 1⟩] 0 (by decide)
  refine ⟨?_, ?_⟩
  · rw [h.1]; decide
  · rw [h.2]; decide

/-- C6 counterexample: a freshly registered client holds
DEFAULT_CREDIT = 3; a CREDIT_STATUS datagram announcing 255 passes the
threshold-10 update and stores 255, which exceeds DEFAULT_CREDIT,
refuting the upper bound of the claimed invariant. -/
theorem credit_exceeds_default_ce :
    (creditStep (creditStep ⟨40000, 0, 0⟩ CreditOp.register)
        (CreditOp.creditStatus 255 0)).credit = 255 ∧
    ¬((creditStep (creditStep ⟨40000, 0, 0⟩ CreditOp.register)
        (CreditOp.creditStatus 255 0)).credit ≤ DEFAULT_CREDIT) := by
  decide

/-- Bounds preserved by one credit-touching operation: with byte-valued
payloads, one step keeps the stored credit within [0, 255]. -/
theorem creditStep_bounds (c : NetSIOClient) (op : CreditOp)
    (h0 : 0 ≤ c.credit) (h1 : c.credit ≤ 255) (hop : op.byteOk = true) :
    0 ≤ (creditStep c op).credit ∧ (creditStep c op).credit ≤ 255 := by
  cases op with
  | register =>
    simp only [creditStep, NetSIOClient.update_credit, DEFAULT_CREDIT]
    split_ifs <;> refine ⟨?_, ?_⟩ <;> first | omega | (dsimp only; omega)
  | creditClients qsize =>
    simp only [creditStep, NetSIOClient.update_credit, DEFAULT_CREDIT]
    split_ifs <;> refine ⟨?_, ?_⟩ <;> first | omega | (dsimp only; omega)
  | creditStatus arg0 qsize =>
    have ha : arg0 ≤ 255 := by simpa [CreditOp.byteOk] using hop
    simp only [creditStep, NetSIOClient.update_credit, DEFAULT_CREDIT]
    split_ifs <;> refine ⟨?_, ?_⟩ <;> first | omega | (dsimp only; omega)
  | aliveRequest arg0 =>
    have ha : arg0 ≤ 255 := by simpa [CreditOp.byteOk] using hop
    simp only [creditStep, NetSIOClient.update_credit, DEFAULT_CREDIT]
    split_ifs <;> refine ⟨?_, ?_⟩ <;> first | omega | (dsimp only; omega)

/-- C6 amended: starting from any credit in [0, 255] (registration
grants start from 0), every sequence of credit-touching operations with
byte-valued payloads keeps the stored credit non-negative and at most
255; the DEFAULT_CREDIT upper bound of the original claim does not
survive CREDIT_STATUS / ALIVE_REQUEST, which store the client-announced
payload byte. -/
theorem credit_bounds_rule (ops : List CreditOp) (c : NetSIOClient)
    (h0 : 0 ≤ c.credit) (h1 : c.credit ≤ 255)
    (hops : ∀ op ∈ ops, op.byteOk = true) :
    0 ≤ (ops.foldl creditStep c).credit ∧ (ops.foldl creditStep c).credit ≤ 255 := by
  induction ops generalizing c with
  | nil => exact ⟨h0, h1⟩
  | cons op rest ih =>
    have hop := hops op (List.mem_cons_self op rest)
    have hrest : ∀ o ∈ rest, o.byteOk = true := fun o ho =>
      hops o (List.mem_cons_of_mem op ho)
    have hstep := creditStep_bounds c op h0 h1 hop
    exact ih (creditStep c op) hstep.1 hstep.2 hrest

/-- Witness for C6 amended on a concrete operation sequence covering all
four operation kinds. -/
theorem credit_bounds_rule_w :
    0 ≤ ([CreditOp.register, CreditOp.creditStatus 255 0, CreditOp.aliveRequest 4,
        CreditOp.creditClients 1].foldl creditStep ⟨7, 0, 0⟩).credit ∧
    ([CreditOp.register, CreditOp.creditStatus 255 0, CreditOp.aliveRequest 4,
        CreditOp.creditClients 1].foldl creditStep ⟨7, 0, 0⟩).credit ≤ 255 := by
  exact credit_bounds_rule
    [CreditOp.register, CreditOp.creditStatus 255 0, CreditOp.aliveRequest 4,
      CreditOp.creditClients 1] ⟨7, 0, 0⟩ (by norm_num) (by norm_num) (by decide)

/-- C7 counterexample: the first unflushed byte arrives at time 0, a
second byte at 4 ms; neither extend flushes, and the armed flush instant
after the second byte is 9 ms, strictly later than first byte plus
BUFFER_MAX_AGE = 5 ms: set_delay restarts the 5 ms countdown on every
append, so the buffer is not flushed 5 ms after the first unflushed
byte. -/
theorem coalesce_timer_restart_ce :
    (NetInBuffer.extend ⟨[], none⟩ [5] 0).2 = none ∧
    (NetInBuffer.extend (NetInBuffer.extend ⟨[], none⟩ [5] 0).1 [6] (4 / 1000)).2 =
      none ∧
    (NetInBuffer.extend (NetInBuffer.extend ⟨[], none⟩ [5] 0).1 [6]
        (4 / 1000)).1.deadline = some (9 / 1000) ∧
    (0 : ℚ) + BUFFER_MAX_AGE < 9 / 1000 := by
  refine ⟨rfl, rfl, ?_, ?_⟩
  · show some ((4 : ℚ) / 1000 + BUFFER_MAX_AGE) = some (9 / 1000)
    norm_num [BUFFER_MAX_AGE]
  · norm_num [BUFFER_MAX_AGE]

/-- C7 amended: DATA_BYTE bytes accumulate in the inbound buffer; an
extend flushes immediately exactly when the buffer length has reached
BUFFER_SIZE = 130 and otherwise arms the timed flush for
BUFFER_MAX_AGE = 5 ms after this (most recent) append, each append
restarting the countdown; a flush of exactly one byte is emitted as
DATA_BYTE and a flush of two or more bytes as a single DATA_BLOCK. -/
theorem coalesce_flush_rules (buf : NetInBuffer) (b : List Nat) (now : ℚ) :
    (BUFFER_SIZE ≤ (buf.data ++ b).length →
      buf.extend b now = (⟨[], buf.deadline⟩, some ⟨NETSIO_DATA_BLOCK, buf.data ++ b⟩)) ∧
    ((buf.data ++ b).length < BUFFER_SIZE →
      buf.extend b now = (⟨buf.data ++ b, some (now + BUFFER_MAX_AGE)⟩, none)) ∧
    (buf.data.length = 1 →
      buf.flush = (⟨[], buf.deadline⟩, some ⟨NETSIO_DATA_BYTE, buf.data⟩)) ∧
    (2 ≤ buf.data.length →
      buf.flush = (⟨[], buf.deadline⟩, some ⟨NETSIO_DATA_BLOCK, buf.data⟩)) := by
  refine ⟨?_, ?_, ?_, ?_⟩
  · intro h
    unfold NetInBuffer.extend NetInBuffer.flush
    rw [if_pos h]
    split_ifs with h0 h1
    · exfalso
      simp only [List.length_append] at h0
      simp only [BUFFER_SIZE, List.length_append] at h
      omega
    · rfl
    · exfalso
      simp only [List.length_append] at h1
      simp only [BUFFER_SIZE, List.length_append] at h
      omega
  · intro h
    unfold NetInBuffer.extend
    rw [if_neg (by omega)]
  · intro h
    unfold NetInBuffer.flush
    rw [if_neg (by omega), if_neg (by omega)]
  · intro h
    unfold NetInBuffer.flush
    rw [if_neg (by omega), if_pos (by omega)]

/-- Witness for C7 amended: a 129-byte buffer plus one byte flushes as a
130-byte DATA_BLOCK; a below-threshold append arms the 5 ms deadline
from the append instant; a one-byte flush is a DATA_BYTE; a two-byte
flush is a DATA_BLOCK. -/
theorem coalesce_flush_rules_w :
    NetInBuffer.extend ⟨List.replicate 129 7, none⟩ [8] 0 =
      (⟨[], none⟩, some ⟨NETSIO_DATA_BLOCK, List.replicate 129 7 ++ [8]⟩) ∧
    NetInBuffer.extend ⟨[], none⟩ [5] (2 / 1000) =
      (⟨[5], some (2 / 1000 + BUFFER_MAX_AGE)⟩, none) ∧
    NetInBuffer.flush ⟨[9], none⟩ = (⟨[], none⟩, some ⟨NETSIO_DATA_BYTE, [9]⟩) ∧
    NetInBuffer.flush ⟨[1, 2], none⟩ = (⟨[], none⟩, some ⟨NETSIO_DATA_BLOCK, [1, 2]⟩) := by
  refine ⟨?_, ?_, ?_, ?_⟩
  · exact (coalesce_flush_rules ⟨List.replicate 129 7, none⟩ [8] 0).1
      (by simp [BUFFER_SIZE])
  · exact (coalesce_flush_rules ⟨[], none⟩ [5] (2 / 1000)).2.1 (by decide)
  · exact (coalesce_flush_rules ⟨[9], none⟩ [] 0).2.2.1 (by decide)
  · exact (coalesce_flush_rules ⟨[1, 2], none⟩ [] 0).2.2.2 (by decide)

/-- C8: while a sync request is in flight, a SYNC_RESPONSE whose first
argument byte matches the serial number and whose second byte is not the
empty marker stores for the emulator the 32-bit value with the event tag
0x81 in bits 0-7, the ack byte in bits 8-15 and the anticipated
next-write size (low byte, then high byte) in bits 16-31; in particular
the argument [sn, 0x01, 0x41, 0x00, 0x00] packs to 0x00004181. -/
theorem sync_response_packing (st : HubState) (k sn e a2 a3 a4 : Nat)
    (hready : st.host_ready = true)
    (hreq : st.sync.request = some k)
    (hsn : st.sync.sn = sn)
    (he : e ≠ NETSIO_EMPTY_SYNC)
    (h2 : a2 < 256) (h3 : a3 < 256) (h4 : a4 < 256) :
    (handle_device_msg st ⟨NETSIO_SYNC_RESPONSE, [sn, e, a2, a3, a4]⟩).1.sync.response =
      some (NETSIO_SYNC_RESPONSE + a2 * 2 ^ 8 + a3 * 2 ^ 16 + a4 * 2 ^ 24) ∧
    packSyncResponse [sn, e, a2, a3, a4] % 2 ^ 8 = NETSIO_SYNC_RESPONSE ∧
    packSyncResponse [sn, e, a2, a3, a4] / 2 ^ 8 % 2 ^ 8 = a2 ∧
    packSyncResponse [sn, e, a2, a3, a4] / 2 ^ 16 % 2 ^ 16 = a3 + 2 ^ 8 * a4 ∧
    packSyncResponse [5, 1, 0x41, 0, 0] = 0x00004181 := by
  have hpack := packSyncResponse_eq sn e a2 a3 a4 h2 h3
  refine ⟨?_, ?_, ?_, ?_, by decide⟩
  · have he0 : e ≠ 0 := by simpa [NETSIO_EMPTY_SYNC] using he
    obtain ⟨hostr, sy, hq⟩ := st
    obtain ⟨ssn, sreq, sresp, scomp⟩ := sy
    simp only at hready hreq hsn
    subst hready hreq hsn
    simp [handle_device_msg, SyncRequest.check_request, SyncRequest.set_response,
      NETSIO_EMPTY_SYNC, he0, hpack]
  · rw [hpack]; norm_num [NETSIO_SYNC_RESPONSE]; omega
  · rw [hpack]; norm_num [NETSIO_SYNC_RESPONSE]; omega
  · rw [hpack]; norm_num [NETSIO_SYNC_RESPONSE]; omega

/-- Witness for C8 at the spec's end-to-end scenario: serial number 5,
reply [5, 0x01, 0x41, 0x00, 0x00] while a COMMAND_OFF_SYNC request is in
flight yields the packed result 0x00004181. -/
theorem sync_response_packing_w :
    (handle_device_msg ⟨true, ⟨5, some NETSIO_COMMAND_OFF_SYNC, none, false⟩, []⟩
        ⟨NETSIO_SYNC_RESPONSE, [5, 1, 0x41, 0, 0]⟩).1.sync.response =
      some 0x00004181 := by
  have h := sync_response_packing
    ⟨true, ⟨5, some NETSIO_COMMAND_OFF_SYNC, none, false⟩, []⟩
    NETSIO_COMMAND_OFF_SYNC 5 1 0x41 0 0 rfl rfl rfl (by decide) (by decide)
    (by decide) (by decide)
  have h1 := h.1
  norm_num [NETSIO_SYNC_RESPONSE] at h1
  exact h1

/-- C9: send_to_all appends the server's test-only counter byte to the
argument of every broadcast message (hub.py lines 228-230, marked TODO
test only), so even a non-sync-bearing COMMAND_ON leaves the server with
its argument extended by one byte rather than transmitted unchanged; the
counter increments mod 256 and the message still reaches the non-expired
client. -/
theorem send_to_all_appends_counter :
    (send_to_all ⟨0, [⟨40000, 1, 3⟩]⟩ ⟨NETSIO_COMMAND_ON, [0x31]⟩ 0).2.1.arg =
      [0x31, 0] ∧
    (send_to_all ⟨0, [⟨40000, 1, 3⟩]⟩ ⟨NETSIO_COMMAND_ON, [0x31]⟩ 0).2.1.arg ≠
      [0x31] ∧
    (send_to_all ⟨0, [⟨40000, 1, 3⟩]⟩ ⟨NETSIO_COMMAND_ON, [0x31]⟩ 0).2.2 =
      [40000] ∧
    (send_to_all ⟨0, [⟨40000, 1, 3⟩]⟩ ⟨NETSIO_COMMAND_ON, [0x31]⟩ 0).1.sn = 1 := by
  refine ⟨rfl, by decide, ?_, rfl⟩
  show ([(⟨40000, 1, 3⟩ : NetSIOClient)].filter
    (fun c => !(c.expired 0))).map (fun c => c.address) = [40000]
  norm_num [NetSIOClient.expired]

end NetSIOHub
